import Mathlib

/-!
Verification of the Digital Garden blog repository.

Shallow embedding of the three JavaScript source files:
* `public/js/api.js` — the API client and the Node HTTP server
  (method/path dispatch, login credential check, static post list,
  catch-all service descriptor);
* `public/js/demo-mode.js` — the `DemoAPI` mock backend backed by
  `localStorage`, environment detection, and the application controller
  (`loadPosts`, theme toggle);
* `public/js/config.js` — per-hostname environment configuration.

Impure reads (`Date.now()`, `new Date()`, `localStorage`, DOM state) are
passed as explicit arguments; `localStorage` is a record of the keys the
code uses, holding decoded values (the JSON encoding used by the code is
injective on the records it stores, so equality of decoded values is
equality of the stored strings).
-/

namespace DigitalGarden

/-! ## Server model (`api.js`) -/

/-- The user object returned by the server on successful login
(`api.js`, login branch): all four fields are string literals. -/
structure ServerUser where
  id : String
  username : String
  email : String
  role : String
deriving DecidableEq

/-- A post record as serialized by the server's `GET /api/posts` branch.
The `date` field in the source is `new Date(ms).toISOString()`; since
`toISOString` is injective on millisecond timestamps we carry the
timestamp itself (`Int`, epoch milliseconds). -/
structure ServerPost where
  id : Nat
  title : String
  content : String
  excerpt : String
  author : String
  date : Int
  tags : List String
  published : Bool
deriving DecidableEq

/-- The `{success, message?, token?, user?}` shape returned by the login
branch (both the success and the two failure responses). -/
structure LoginBody where
  success : Bool
  message : Option String
  token : Option String
  user : Option ServerUser
deriving DecidableEq

/-- The static service descriptor returned for unmatched routes. -/
structure Descriptor where
  message : String
  version : String
  endpoints : List (String × String)
  status : String
deriving DecidableEq

/-- The body of an HTTP response produced by the server: empty (the
OPTIONS branch calls `res.end()` with no payload), a login result, the
posts payload, or the service descriptor. -/
inductive Body where
  | empty : Body
  | login (r : LoginBody) : Body
  | posts (success : Bool) (list : List ServerPost) : Body
  | descriptor (d : Descriptor) : Body
deriving DecidableEq

/-- Result of `JSON.parse` on the login request body followed by the
property accesses `data.username` / `data.password`: either the parse
throws (`malformed`), or it yields a value whose `username` and
`password` properties are the given strings when present. A property
that is absent or not a string can never be strictly equal to the
literal checked by the server, so it is modelled as `none`. -/
inductive RequestBody where
  | malformed : RequestBody
  | parsed (username password : Option String) : RequestBody
deriving DecidableEq

/-- The hardcoded user record of the login success response. -/
def serverAdminUser : ServerUser :=
  { id := "1", username := "admin", email := "admin@blog.com", role := "admin" }

/-- The two static post records of the `GET /api/posts` branch; `now` is
the millisecond clock read by `new Date()` / `Date.now()` during the
request (the second date is `Date.now() - 86400000`). -/
def serverPosts (now : Int) : List ServerPost :=
  [ { id := 1
    , title := "Welcome to Digital Garden"
    , content := "This is your first post! Start writing amazing content."
    , excerpt := "Welcome to your new digital garden where ideas bloom."
    , author := "Admin"
    , date := now
    , tags := ["welcome", "first-post"]
    , published := true }
  , { id := 2
    , title := "Getting Started with Blogging"
    , content := "Here are some tips to get started with your blog..."
    , excerpt := "Essential tips for new bloggers to create engaging content."
    , author := "Admin"
    , date := now - 86400000
    , tags := ["blogging", "tips"]
    , published := true } ]

/-- The fixed service descriptor of the default branch. -/
def serviceDescriptor : Descriptor :=
  { message := "Digital Garden Blog API Server"
  , version := "1.0.0"
  , endpoints :=
      [ ("POST /api/auth/login", "User authentication")
      , ("GET /api/posts", "Fetch blog posts") ]
  , status := "running" }

/-- The login branch of the request handler: malformed JSON gives the
fixed 400 body, the literal credential pair gives the 200 success body,
anything else the 400 invalid-credentials body. -/
def loginBranch (body : RequestBody) : Nat × Body :=
  match body with
  | RequestBody.malformed =>
      (400, Body.login
        { success := false, message := some "Invalid JSON"
        , token := none, user := none })
  | RequestBody.parsed u p =>
      if u = some "admin" ∧ p = some "admin123" then
        (200, Body.login
          { success := true, message := some "Login successful!"
          , token := some "fake-jwt-token-12345", user := some serverAdminUser })
      else
        (400, Body.login
          { success := false, message := some "Invalid credentials"
          , token := none, user := none })

/-- The server request handler of `api.js`: the OPTIONS preflight branch,
then the two routes matched by literal method and path, then the
catch-all descriptor. Returns (HTTP status, body). -/
def handleRequest (method url : String) (body : RequestBody) (now : Int) :
    Nat × Body :=
  if method = "OPTIONS" then
    (200, Body.empty)
  else if method = "POST" ∧ url = "/api/auth/login" then
    loginBranch body
  else if method = "GET" ∧ url = "/api/posts" then
    (200, Body.posts true (serverPosts now))
  else
    (200, Body.descriptor serviceDescriptor)

/-- The `success` flag carried by a response body, `false` when the body
has no such flag. -/
def Body.successFlag : Body → Bool
  | Body.login r => r.success
  | Body.posts s _ => s
  | _ => false

/-- A server post with its `date` field erased, for comparing responses
up to the request-time-derived dates. -/
def ServerPost.eraseDate (p : ServerPost) : ServerPost :=
  { p with date := 0 }

/-! ## Demo mode model (`demo-mode.js`) -/

/-- `DEMO_MODE.mockUser` of `demo-mode.js`. -/
structure DemoUser where
  id : Nat
  username : String
  email : String
  name : String
deriving DecidableEq

/-- A demo post record, with the exact fields of `DEMO_MODE.mockPosts`
entries and of the object built by `DemoAPI.createPost`; `date` is the
date string the code stores. -/
structure DemoPost where
  id : Nat
  title : String
  content : String
  author : String
  date : String
  tags : List String
  excerpt : String
deriving DecidableEq

/-- The browser `localStorage`, restricted to the keys the demo API
uses, holding decoded values (`none` models an absent key, on which
`getItem` returns `null`). -/
structure Storage where
  demo_posts : Option (List DemoPost)
  demo_logged_in : Option String
  demo_user : Option DemoUser
deriving DecidableEq

/-- The in-memory state of a `DemoAPI` instance together with the
backing `localStorage`. -/
structure DemoState where
  isLoggedIn : Bool
  posts : List DemoPost
  storage : Storage
deriving DecidableEq

/-- The `{success, message?, post?}` descriptor resolved by the mutating
demo operations. -/
structure DemoResult where
  success : Bool
  message : Option String
  post : Option DemoPost
deriving DecidableEq

/-- The `{success, message?, token?, user?}` descriptor resolved by
`DemoAPI.login`. -/
structure DemoLoginResult where
  success : Bool
  message : Option String
  token : Option String
  user : Option DemoUser
deriving DecidableEq

/-- `DEMO_MODE.mockUser`. -/
def mockUser : DemoUser :=
  { id := 1, username := "admin", email := "admin@digitalgarden.com"
  , name := "Demo Admin" }

/-- `DEMO_MODE.mockPosts`: the three posts embedded in the script. -/
def mockPosts : List DemoPost :=
  [ { id := 1
    , title := "Welcome to Digital Garden 🌱"
    , content := "This is a demo post showing how the blog looks with content. In a full deployment, this would be connected to a MongoDB database with real user authentication."
    , author := "Demo Admin"
    , date := "2025-09-18"
    , tags := ["welcome", "demo"]
    , excerpt := "Welcome to our beautiful digital garden blog..." }
  , { id := 2
    , title := "Features of This Blog 📝"
    , content := "This blog includes:\n\n• Beautiful responsive design\n• Dark/Light theme toggle\n• User authentication (demo mode)\n• MongoDB integration (when backend is running)\n• Modern UI with animations\n• Mobile-friendly layout"
    , author := "Demo Admin"
    , date := "2025-09-17"
    , tags := ["features", "design"]
    , excerpt := "Explore all the amazing features built into this blog..." }
  , { id := 3
    , title := "How to Deploy with Backend 🚀"
    , content := "To get full functionality:\n\n1. Deploy the Node.js backend to a service like Heroku, Railway, or Vercel\n2. Set up MongoDB Atlas database\n3. Update the API_BASE_URL in config.js\n4. Deploy frontend to Netlify/Vercel\n\nFor now, enjoy this static demo!"
    , author := "Demo Admin"
    , date := "2025-09-16"
    , tags := ["deployment", "guide"]
    , excerpt := "Learn how to deploy the full-stack version..." } ]

/-- `this.savePostsToStorage()`: writes the serialization of the
in-memory list under the `demo_posts` key. -/
def savePostsToStorage (st : DemoState) : DemoState :=
  { st with storage := { st.storage with demo_posts := some st.posts } }

/-- `JSON.parse(localStorage.getItem('demo_posts')) || DEMO_MODE.mockPosts`:
an absent key parses to `null`, which is falsy, so the mock list is
used; any stored list (an array, even empty, is truthy) is used as is. -/
def hydratePosts (stored : Option (List DemoPost)) : List DemoPost :=
  match stored with
  | none => mockPosts
  | some l => l

/-- The `DemoAPI` constructor: reads the login flag and the stored post
list from `localStorage`, then immediately writes the post list back. -/
def DemoAPI.new (storage : Storage) : DemoState :=
  savePostsToStorage
    { isLoggedIn := storage.demo_logged_in == some "true"
    , posts := hydratePosts storage.demo_posts
    , storage := storage }

/-- `DemoAPI.login`: the literal credential check; `now` is the
`Date.now()` read used to build the token. -/
def DemoAPI.login (st : DemoState) (username password : String) (now : Nat) :
    DemoState × DemoLoginResult :=
  if username = "admin" ∧ password = "admin123" then
    ( { st with
          isLoggedIn := true
        , storage := { st.storage with
            demo_logged_in := some "true", demo_user := some mockUser } }
    , { success := true, message := none
      , token := some ("demo_token_" ++ toString now), user := some mockUser } )
  else
    ( st
    , { success := false
      , message := some "Invalid credentials. Try admin/admin123"
      , token := none, user := none } )

/-- `DemoAPI.logout`: clears the flag and the stored user. -/
def DemoAPI.logout (st : DemoState) : DemoState × Bool :=
  ( { st with
        isLoggedIn := false
      , storage := { st.storage with
          demo_logged_in := none, demo_user := none } }
  , true )

/-- The record built by `DemoAPI.createPost`: `nowId` is the
`Date.now()` read used as identifier, `today` the date string
`new Date().toISOString().split('T')[0]`, and the excerpt is the first
100 characters of the content followed by an ellipsis. -/
def newDemoPost (title content : String) (tags : List String)
    (nowId : Nat) (today : String) : DemoPost :=
  { id := nowId
  , title := title
  , content := content
  , author := mockUser.name
  , date := today
  , tags := tags
  , excerpt := content.take 100 ++ "..." }

/-- `DemoAPI.createPost`: refuses when not logged in; otherwise
prepends the new record (`unshift`) and persists the list. -/
def DemoAPI.createPost (st : DemoState) (title content : String)
    (tags : List String) (nowId : Nat) (today : String) :
    DemoState × DemoResult :=
  if st.isLoggedIn = false then
    (st, { success := false, message := some "Not authenticated", post := none })
  else
    let p := newDemoPost title content tags nowId today
    let st' := savePostsToStorage { st with posts := p :: st.posts }
    ( st'
    , { success := true
      , message := some "Post created successfully (demo mode)"
      , post := some p } )

/-- `DemoAPI.deletePost`: refuses when not logged in; otherwise keeps
exactly the records whose `id` differs from the argument (`filter` with
strict inequality) and persists the list. -/
def DemoAPI.deletePost (st : DemoState) (postId : Nat) :
    DemoState × DemoResult :=
  if st.isLoggedIn = false then
    (st, { success := false, message := some "Not authenticated", post := none })
  else
    let st' := savePostsToStorage
      { st with posts := st.posts.filter (fun p => p.id != postId) }
    ( st'
    , { success := true
      , message := some "Post deleted successfully (demo mode)"
      , post := none } )

/-! ## Environment detection and configuration
(`config.js`, `demo-mode.js`, `app` script) -/

/-- `pat.isSub l`: some contiguous run of `l` equals `pat` — the
semantics of JavaScript `String.prototype.includes` on the character
list. -/
def charsContain (pat : List Char) : List Char → Bool
  | [] => pat.isEmpty
  | c :: rest => pat.isPrefixOf (c :: rest) || charsContain pat rest

/-- JavaScript `s.includes(pat)`. -/
def strIncludes (s pat : String) : Bool :=
  charsContain pat.toList s.toList

/-- `isStaticDeployment()` of `demo-mode.js`: not local means static. -/
def isStaticDeployment (hostname : String) : Bool :=
  let isLocal := strIncludes hostname "localhost"
    || strIncludes hostname "127.0.0.1" || hostname == ""
  !isLocal

/-- One entry of the `CONFIG` object of `config.js`; the two entries
without a `DEMO_MODE` key read it as `undefined`, i.e. falsy. -/
structure EnvConfig where
  API_BASE_URL : String
  APP_NAME : String
  DEBUG : Bool
  DEMO_MODE : Bool
deriving DecidableEq

/-- `CONFIG.development`. -/
def developmentConfig : EnvConfig :=
  { API_BASE_URL := "http://127.0.0.1:9090/api"
  , APP_NAME := "Digital Garden Blog (Dev)", DEBUG := true, DEMO_MODE := false }

/-- `CONFIG.production`. -/
def productionConfig : EnvConfig :=
  { API_BASE_URL := "https://your-backend-api.com/api"
  , APP_NAME := "Digital Garden Blog", DEBUG := false, DEMO_MODE := false }

/-- `CONFIG.netlify`. -/
def netlifyConfig : EnvConfig :=
  { API_BASE_URL := "/api"
  , APP_NAME := "Digital Garden Blog (Demo)", DEBUG := false, DEMO_MODE := true }

/-- `getEnvironment()` of `config.js`. -/
def getEnvironment (hostname : String) : String :=
  if hostname = "localhost" ∨ hostname = "127.0.0.1" then "development"
  else if strIncludes hostname "netlify.app" || strIncludes hostname "netlify.com" then "netlify"
  else "production"

/-- `CONFIG[env]` lookup performed by `getConfig()`. -/
def CONFIG (env : String) : Option EnvConfig :=
  if env = "development" then some developmentConfig
  else if env = "production" then some productionConfig
  else if env = "netlify" then some netlifyConfig
  else none

/-- `getConfig()` of `config.js`. -/
def getConfig (hostname : String) : Option EnvConfig :=
  CONFIG (getEnvironment hostname)

/-- The URL the controller's `loadPosts` fetches. In the source it is
the string literal passed to `fetch`, with no dependence on the
environment: the controller never consults `getConfig` or
`window.demoAPI` when loading posts. -/
def loadPostsFetchURL : String :=
  "http://127.0.0.1:9090/api/posts"

/-! ## Theme handling (controller `bindEvents`) -/

/-- The theme-relevant browser state: the `localStorage` value under the
`theme` key and the `data-theme` attribute on the document element
(`none` models an absent attribute, on which `getAttribute` returns
`null`). -/
structure ThemeState where
  storedTheme : Option String
  dataTheme : Option String
deriving DecidableEq

/-- JavaScript `v || d` on a nullable string: `null` and the empty
string are falsy. -/
def jsOrStr (v : Option String) (d : String) : String :=
  match v with
  | none => d
  | some s => if s = "" then d else s

/-- The startup path of the theme code in `bindEvents`:
`localStorage.getItem('theme') || 'light'` applied to the `data-theme`
attribute. -/
def loadSavedTheme (s : ThemeState) : ThemeState :=
  { s with dataTheme := some (jsOrStr s.storedTheme "light") }

/-- The click handler of the theme toggle: reads the current attribute
(defaulting to light), flips it, sets the attribute and persists the
new value. -/
def toggleTheme (s : ThemeState) : ThemeState :=
  let current := jsOrStr s.dataTheme "light"
  let newTheme := if current = "dark" then "light" else "dark"
  { storedTheme := some newTheme, dataTheme := some newTheme }

/-! ## Shared concrete states for witnesses -/

/-- A logged-in demo state whose storage already mirrors its posts. -/
def loggedInState : DemoState :=
  { isLoggedIn := true
  , posts := mockPosts
  , storage :=
      { demo_posts := some mockPosts
      , demo_logged_in := some "true"
      , demo_user := some mockUser } }

/-- The demo state obtained by constructing a `DemoAPI` over an empty
`localStorage`: not logged in, mock posts hydrated. -/
def demoFreshState : DemoState :=
  DemoAPI.new { demo_posts := none, demo_logged_in := none, demo_user := none }

/-! ## Claims -/

/-- C1: for every login request, both the server's `POST /api/auth/login`
handler and `DemoAPI.login` return a result whose `success` flag is
`true` exactly when the username is the literal `admin` and the password
the literal `admin123`, and `false` on every other pair. -/
theorem C1_login_success_iff :
    (∀ (u p : Option String) (now : Int),
      ((handleRequest "POST" "/api/auth/login" (RequestBody.parsed u p) now).2.successFlag = true
        ↔ (u = some "admin" ∧ p = some "admin123")))
    ∧ (∀ (st : DemoState) (username password : String) (now : Nat),
      ((DemoAPI.login st username password now).2.success = true
        ↔ (username = "admin" ∧ password = "admin123"))) := by
  constructor
  · intro u p now
    by_cases h : u = some "admin" ∧ p = some "admin123" <;>
      simp [handleRequest, loginBranch, Body.successFlag, h]
  · intro st username password now
    by_cases h : username = "admin" ∧ password = "admin123" <;>
      simp [DemoAPI.login, h]

/-- C1 witness: the theorem evaluated at the literal credentials against
a concrete state and clock. -/
theorem C1_login_witness :
    (DemoAPI.login loggedInState "admin" "admin123" 5).2.success = true :=
  (C1_login_success_iff.2 loggedInState "admin" "admin123" 5).mpr ⟨rfl, rfl⟩

/-- C2 counterexample: the `GET /api/posts` responses of two invocations
at different clock readings are unequal, because the `date` fields are
derived from the request time. -/
theorem C2_posts_not_identical :
    handleRequest "GET" "/api/posts" (RequestBody.parsed none none) 0
      ≠ handleRequest "GET" "/api/posts" (RequestBody.parsed none none) 86400000 := by
  decide

/-- C2 (amended): every `GET /api/posts` response has status 200,
`success = true` and the same two static records up to the `date`
fields, which are derived from the invocation time; two invocations at
the same clock reading yield equal responses. -/
theorem C2_posts_static_modulo_date (t₁ t₂ : Int) (b₁ b₂ : RequestBody) :
    (handleRequest "GET" "/api/posts" b₁ t₁).1 = 200
    ∧ (handleRequest "GET" "/api/posts" b₁ t₁).2 = Body.posts true (serverPosts t₁)
    ∧ (serverPosts t₁).length = 2
    ∧ (serverPosts t₁).map ServerPost.eraseDate
        = (serverPosts t₂).map ServerPost.eraseDate
    ∧ (t₁ = t₂ →
        handleRequest "GET" "/api/posts" b₁ t₁ = handleRequest "GET" "/api/posts" b₂ t₂) := by
  refine ⟨?_, ?_, ?_, ?_, ?_⟩
  · simp [handleRequest]
  · simp [handleRequest]
  · simp [serverPosts]
  · simp [serverPosts, ServerPost.eraseDate]
  · intro h
    subst h
    simp [handleRequest]

/-- C2 witness: the amended statement at a concrete pair of equal
clock readings. -/
theorem C2_posts_witness :
    (handleRequest "GET" "/api/posts" RequestBody.malformed 7).1 = 200
    ∧ ((7 : Int) = 7 →
        handleRequest "GET" "/api/posts" RequestBody.malformed 7
          = handleRequest "GET" "/api/posts" (RequestBody.parsed none none) 7) :=
  ⟨(C2_posts_static_modulo_date 7 7 RequestBody.malformed (RequestBody.parsed none none)).1,
   (C2_posts_static_modulo_date 7 7 RequestBody.malformed (RequestBody.parsed none none)).2.2.2.2⟩

/-- C6 counterexample: an OPTIONS request is neither `POST
/api/auth/login` nor `GET /api/posts`, yet the server answers it with an
empty body, not the service descriptor. -/
theorem C6_options_not_descriptor :
    handleRequest "OPTIONS" "/api/posts" (RequestBody.parsed none none) 0
      = (200, Body.empty)
    ∧ handleRequest "OPTIONS" "/api/posts" (RequestBody.parsed none none) 0
      ≠ (200, Body.descriptor serviceDescriptor) := by
  constructor
  · rfl
  · decide

/-- C6 (amended): every request whose method is not OPTIONS and whose
method/path pair is neither `POST /api/auth/login` nor `GET /api/posts`
gets HTTP 200 with the fixed service descriptor; OPTIONS requests get
HTTP 200 with an empty body. -/
theorem C6_default_descriptor (method url : String) (body : RequestBody) (now : Int)
    (hopt : method ≠ "OPTIONS")
    (hlogin : ¬(method = "POST" ∧ url = "/api/auth/login"))
    (hposts : ¬(method = "GET" ∧ url = "/api/posts")) :
    handleRequest method url body now = (200, Body.descriptor serviceDescriptor) := by
  simp [handleRequest, hopt, hlogin, hposts]

/-- C6 witness: the amended statement at a concrete unmatched request. -/
theorem C6_default_witness :
    ("DELETE" : String) ≠ "OPTIONS"
    ∧ ¬(("DELETE" : String) = "POST" ∧ ("/api/posts" : String) = "/api/auth/login")
    ∧ ¬(("DELETE" : String) = "GET" ∧ ("/api/posts" : String) = "/api/posts")
    ∧ handleRequest "DELETE" "/api/posts" (RequestBody.parsed none none) 0
        = (200, Body.descriptor serviceDescriptor) :=
  ⟨by decide, by decide, by decide,
   C6_default_descriptor "DELETE" "/api/posts" (RequestBody.parsed none none) 0
     (by decide) (by decide) (by decide)⟩

/-- C7: a `POST /api/auth/login` request whose body fails JSON parsing
is answered with HTTP 400 and the fixed `{success: false, message:
'Invalid JSON'}` body. -/
theorem C7_invalid_json (now : Int) :
    handleRequest "POST" "/api/auth/login" RequestBody.malformed now
      = (400, Body.login
          { success := false, message := some "Invalid JSON"
          , token := none, user := none }) := by
  simp [handleRequest, loginBranch]

/-- C7 witness: the statement at a concrete clock reading. -/
theorem C7_invalid_json_witness :
    handleRequest "POST" "/api/auth/login" RequestBody.malformed 0
      = (400, Body.login
          { success := false, message := some "Invalid JSON"
          , token := none, user := none }) :=
  C7_invalid_json 0

/-- C3: on a logged-in state, `createPost` prepends the new record —
whose excerpt is the first 100 characters of the content followed by an
ellipsis — to the posts list, persists the updated list under
`demo_posts`, and a freshly constructed `DemoAPI` over the resulting
storage re-hydrates a posts list headed by that record. -/
theorem C3_create_prepends_persists (st : DemoState) (h : st.isLoggedIn = true)
    (title content : String) (tags : List String) (nowId : Nat) (today : String) :
    (DemoAPI.createPost st title content tags nowId today).1.posts
        = newDemoPost title content tags nowId today :: st.posts
    ∧ (newDemoPost title content tags nowId today).excerpt = content.take 100 ++ "..."
    ∧ (DemoAPI.createPost st title content tags nowId today).1.storage.demo_posts
        = some (newDemoPost title content tags nowId today :: st.posts)
    ∧ (DemoAPI.new (DemoAPI.createPost st title content tags nowId today).1.storage).posts.head?
        = some (newDemoPost title content tags nowId today)
    ∧ (DemoAPI.createPost st title content tags nowId today).2
        = { success := true
          , message := some "Post created successfully (demo mode)"
          , post := some (newDemoPost title content tags nowId today) } := by
  refine ⟨?_, rfl, ?_, ?_, ?_⟩ <;>
    simp [DemoAPI.createPost, h, savePostsToStorage, DemoAPI.new, hydratePosts]

/-- C3 witness: the hypothesis and the prepend conclusion at a concrete
logged-in state and input. -/
theorem C3_create_witness :
    loggedInState.isLoggedIn = true
    ∧ (DemoAPI.createPost loggedInState "A day" "Hello garden" [] 42 "2025-10-11").1.posts
        = newDemoPost "A day" "Hello garden" [] 42 "2025-10-11" :: loggedInState.posts :=
  ⟨rfl,
   (C3_create_prepends_persists loggedInState rfl "A day" "Hello garden" [] 42 "2025-10-11").1⟩

/-- C4: on a logged-in state, `deletePost postId` replaces the posts
list by its filtering on `id ≠ postId`: every surviving record has a
different identifier, every record with a different identifier survives,
the result is a sublist of the original (order and multiplicity of the
survivors unchanged), and the filtered list is persisted. -/
theorem C4_delete_filters_by_id (st : DemoState) (h : st.isLoggedIn = true)
    (postId : Nat) :
    (DemoAPI.deletePost st postId).1.posts
        = st.posts.filter (fun p => p.id != postId)
    ∧ (∀ p, p ∈ (DemoAPI.deletePost st postId).1.posts → p.id ≠ postId)
    ∧ (∀ p, p ∈ st.posts → p.id ≠ postId → p ∈ (DemoAPI.deletePost st postId).1.posts)
    ∧ List.Sublist (DemoAPI.deletePost st postId).1.posts st.posts
    ∧ (DemoAPI.deletePost st postId).1.storage.demo_posts
        = some ((DemoAPI.deletePost st postId).1.posts) := by
  have hmain : (DemoAPI.deletePost st postId).1.posts
      = st.posts.filter (fun p => p.id != postId) := by
    simp [DemoAPI.deletePost, h, savePostsToStorage]
  refine ⟨hmain, ?_, ?_, ?_, ?_⟩
  · intro p hp
    rw [hmain] at hp
    simpa using (List.mem_filter.mp hp).2
  · intro p hp hne
    rw [hmain]
    exact List.mem_filter.mpr ⟨hp, by simpa using hne⟩
  · rw [hmain]
    exact List.filter_sublist st.posts
  · simp [DemoAPI.deletePost, h, savePostsToStorage]

/-- C4 witness: the hypothesis and the filter conclusion at a concrete
logged-in state holding the three mock posts. -/
theorem C4_delete_witness :
    loggedInState.isLoggedIn = true
    ∧ (DemoAPI.deletePost loggedInState 2).1.posts
        = loggedInState.posts.filter (fun p => p.id != 2) :=
  ⟨rfl, (C4_delete_filters_by_id loggedInState rfl 2).1⟩

/-- C5 counterexample: on a Netlify hostname the environment detection
reports static hosting with the demo configuration, yet the URL
`loadPosts` fetches is the hardcoded development-server URL, not a
demo-API one — the controller does not target the API selected by the
environment detection. -/
theorem C5_static_still_real_server :
    isStaticDeployment "demo.netlify.app" = true
    ∧ getEnvironment "demo.netlify.app" = "netlify"
    ∧ getConfig "demo.netlify.app" = some netlifyConfig
    ∧ loadPostsFetchURL ≠ netlifyConfig.API_BASE_URL ++ "/posts"
    ∧ loadPostsFetchURL = developmentConfig.API_BASE_URL ++ "/posts" := by
  decide

/-- C5 (amended): the controller's post-loading request goes to the
hardcoded development-server URL in every detected environment; the
environment detection only ever selects one of the three configurations
and never redirects `loadPosts`. -/
theorem C5_loadPosts_hardcoded (hostname : String) :
    loadPostsFetchURL = developmentConfig.API_BASE_URL ++ "/posts"
    ∧ loadPostsFetchURL ≠ netlifyConfig.API_BASE_URL ++ "/posts"
    ∧ (getEnvironment hostname = "development"
        ∨ getEnvironment hostname = "netlify"
        ∨ getEnvironment hostname = "production") := by
  refine ⟨rfl, by decide, ?_⟩
  unfold getEnvironment
  split_ifs <;> simp

/-- C5 witness: the amended statement at a concrete hostname. -/
theorem C5_loadPosts_witness :
    loadPostsFetchURL = developmentConfig.API_BASE_URL ++ "/posts" :=
  (C5_loadPosts_hardcoded "demo.netlify.app").1

/-- C8: on startup the controller applies the stored theme, defaulting
to light when none is stored; the toggle persists the attribute value it
sets, and the next load re-applies exactly the toggled theme. -/
theorem C8_theme_persistence (s : ThemeState) :
    (loadSavedTheme s).dataTheme = some (jsOrStr s.storedTheme "light")
    ∧ (s.storedTheme = none → (loadSavedTheme s).dataTheme = some "light")
    ∧ (toggleTheme s).storedTheme = (toggleTheme s).dataTheme
    ∧ (∀ a : Option String,
        (loadSavedTheme { storedTheme := (toggleTheme s).storedTheme, dataTheme := a }).dataTheme
          = (toggleTheme s).dataTheme) := by
  refine ⟨rfl, ?_, ?_, ?_⟩
  · intro h
    simp [loadSavedTheme, h, jsOrStr]
  · simp [toggleTheme]
  · intro a
    simp only [toggleTheme, loadSavedTheme]
    split_ifs <;> simp [jsOrStr]

/-- C8 witness: with nothing stored, startup applies the light theme. -/
theorem C8_theme_witness :
    (({ storedTheme := none, dataTheme := none } : ThemeState).storedTheme = none)
    ∧ (loadSavedTheme { storedTheme := none, dataTheme := none }).dataTheme = some "light" :=
  ⟨rfl, (C8_theme_persistence { storedTheme := none, dataTheme := none }).2.1 rfl⟩

/-- C9: on a state that is not logged in, `createPost` and `deletePost`
resolve the fixed not-authenticated failure and return the state
unchanged — in particular the in-memory posts list and the stored
`demo_posts` value are untouched. -/
theorem C9_not_authenticated (st : DemoState) (h : st.isLoggedIn = false)
    (title content : String) (tags : List String) (nowId : Nat) (today : String)
    (postId : Nat) :
    DemoAPI.createPost st title content tags nowId today
        = (st, { success := false, message := some "Not authenticated", post := none })
    ∧ DemoAPI.deletePost st postId
        = (st, { success := false, message := some "Not authenticated", post := none })
    ∧ (DemoAPI.createPost st title content tags nowId today).1.posts = st.posts
    ∧ (DemoAPI.createPost st title content tags nowId today).1.storage.demo_posts
        = st.storage.demo_posts
    ∧ (DemoAPI.deletePost st postId).1.posts = st.posts
    ∧ (DemoAPI.deletePost st postId).1.storage.demo_posts
        = st.storage.demo_posts := by
  refine ⟨?_, ?_, ?_, ?_, ?_, ?_⟩ <;>
    simp [DemoAPI.createPost, DemoAPI.deletePost, h]

/-- C9 witness: the hypothesis and the create conclusion at the state a
fresh `DemoAPI` over empty storage yields. -/
theorem C9_witness :
    demoFreshState.isLoggedIn = false
    ∧ DemoAPI.createPost demoFreshState "t" "c" [] 1 "2025-10-11"
        = (demoFreshState,
           { success := false, message := some "Not authenticated", post := none }) :=
  ⟨rfl, (C9_not_authenticated demoFreshState rfl "t" "c" [] 1 "2025-10-11" 0).1⟩

/-- The storage-synchronisation invariant: the value stored under
`demo_posts` is exactly (the serialization of) the in-memory list. -/
def postsInv (st : DemoState) : Prop :=
  st.storage.demo_posts = some st.posts

/-- C10: the `DemoAPI` constructor establishes the invariant that the
stored `demo_posts` value equals the in-memory posts list, and every
operation — `createPost`, `deletePost`, and also `login` and `logout`,
which do not touch the list — preserves it, so the two never diverge
between operations. -/
theorem C10_storage_posts_sync :
    (∀ storage : Storage, postsInv (DemoAPI.new storage))
    ∧ (∀ st title content tags nowId today, postsInv st →
        postsInv (DemoAPI.createPost st title content tags nowId today).1)
    ∧ (∀ st postId, postsInv st →
        postsInv (DemoAPI.deletePost st postId).1)
    ∧ (∀ st username password now, postsInv st →
        postsInv (DemoAPI.login st username password now).1)
    ∧ (∀ st, postsInv st → postsInv (DemoAPI.logout st).1) := by
  refine ⟨?_, ?_, ?_, ?_, ?_⟩
  · intro storage
    simp [postsInv, DemoAPI.new, savePostsToStorage]
  · intro st title content tags nowId today hinv
    cases hb : st.isLoggedIn <;>
      simp_all [postsInv, DemoAPI.createPost, savePostsToStorage]
  · intro st postId hinv
    cases hb : st.isLoggedIn <;>
      simp_all [postsInv, DemoAPI.deletePost, savePostsToStorage]
  · intro st username password now hinv
    unfold postsInv DemoAPI.login
    split_ifs <;> simpa using hinv
  · intro st hinv
    simp_all [postsInv, DemoAPI.logout]

/-- C10 witness: the invariant established by the constructor over empty
storage and preserved by a delete on a concrete synchronised state. -/
theorem C10_sync_witness :
    postsInv (DemoAPI.new { demo_posts := none, demo_logged_in := none, demo_user := none })
    ∧ postsInv loggedInState
    ∧ postsInv (DemoAPI.deletePost loggedInState 2).1 :=
  ⟨C10_storage_posts_sync.1 _, rfl,
   C10_storage_posts_sync.2.2.1 loggedInState 2 rfl⟩

end DigitalGarden
